import Mathlib

/-!
Verification development for the wave-field synthesis and radial-filter
design engine of a spherical microphone array package (module gen.py).

External collaborators (spherical harmonics, array extrapolation,
spherical Hankel functions, coordinate conversion, the Lebedev point
tables and the numpy Gauss-Legendre root finder) are out of scope of the
engine and are modelled as function parameters.  All definitions below
are shallow embeddings of the Python source: machine floats are
modelled as real numbers, numpy arrays as lists or index functions,
raised exceptions as Except.error values, and the uninitialised memory
returned by np.empty as an explicit junk parameter.
-/

namespace SfaGen

/-- np.linspace: n evenly spaced samples from a to b, endpoints included.
For n = 1 numpy returns the single sample a; the formula agrees because
division by zero yields 0 in Lean. -/
noncomputable def linspace (a b : ℝ) (n : ℕ) : List ℝ :=
  (List.range n).map (fun i : ℕ => a + (b - a) * (i : ℝ) / ((n : ℝ) - 1))

/-- One azimuth block of the gaussGrid loop (gen.py lines 93-97): rows
for azimuth index k carry azimuth k * 2pi / AZnodes, and the colatitude
and weight columns are reversed on every even k (the VariSphere zig-zag:
the slice step -1 + k mod 2 * 2 is -1 for even k and +1 for odd k). -/
noncomputable def gaussBlock (AZnodes : ℕ) (colat wNorm : List ℝ) (k : ℕ) :
    List (ℝ × ℝ × ℝ) :=
  List.zipWith (fun c w => ((k : ℝ) * (2 * Real.pi / AZnodes), c, w))
    (if k % 2 = 0 then colat.reverse else colat)
    (if k % 2 = 0 then wNorm.reverse else wNorm)

/-- gaussGrid from gen.py lines 79-99, parameterised by the
Gauss-Legendre roots and weights (roots, ELw) delivered by the external
numpy leggauss collaborator.  Azimuth nodes are k * 2pi / AZnodes with
equal azimuth weights 2pi / AZnodes, colatitude is arccos of the roots,
the weight table is the outer product divided by 3 and renormalised by
its total sum, which equals 2pi * ELw.sum / 3 for AZnodes >= 1. -/
noncomputable def gaussGrid (AZnodes : ℕ) (roots ELw : List ℝ) : List (ℝ × ℝ × ℝ) :=
  (List.range AZnodes).flatMap
    (gaussBlock AZnodes (roots.map Real.arccos)
      (ELw.map (fun w => 2 * Real.pi / AZnodes * w / 3 / (2 * Real.pi * ELw.sum / 3))))

lemma sum_map_flatMap {α β : Type} (l : List α) (f : α → List β) (g : β → ℝ) :
    ((l.flatMap f).map g).sum = (l.map (fun a => ((f a).map g).sum)).sum := by
  induction l with
  | nil => simp
  | cons a l ih => simp [ih]

lemma sum_map_mul_const (l : List ℝ) (c : ℝ) :
    (l.map (fun x => x * c)).sum = l.sum * c := by
  induction l with
  | nil => simp
  | cons x l ih => simp [ih, add_mul]

lemma sum_map_const {α : Type} (l : List α) (c : ℝ) :
    (l.map (fun _ => c)).sum = l.length * c := by
  induction l with
  | nil => simp
  | cons x l ih => simp [ih, add_mul, add_comm]

lemma zipWith_triple_weights (a : ℝ) :
    ∀ (cs ws : List ℝ), cs.length = ws.length →
      ((List.zipWith (fun c w => (a, c, w)) cs ws).map (fun r => r.2.2)).sum = ws.sum := by
  intro cs
  induction cs with
  | nil =>
      intro ws h
      cases ws with
      | nil => simp
      | cons w ws => simp at h
  | cons c cs ih =>
      intro ws h
      cases ws with
      | nil => simp at h
      | cons w ws =>
          simp only [List.zipWith_cons_cons, List.map_cons, List.sum_cons]
          rw [ih ws (by simpa using h)]

lemma mem_zipWith_triple {a : ℝ} :
    ∀ {cs ws : List ℝ} {r : ℝ × ℝ × ℝ},
      r ∈ List.zipWith (fun c w => (a, c, w)) cs ws → r.1 = a ∧ r.2.1 ∈ cs := by
  intro cs
  induction cs with
  | nil => intro ws r h; simp at h
  | cons c cs ih =>
      intro ws r h
      cases ws with
      | nil => simp at h
      | cons w ws =>
          simp only [List.zipWith_cons_cons, List.mem_cons] at h
          rcases h with h | h
          · subst h; exact ⟨rfl, List.mem_cons_self c cs⟩
          · obtain ⟨h1, h2⟩ := ih h
            exact ⟨h1, List.mem_cons_of_mem c h2⟩

lemma gaussBlock_length (AZnodes : ℕ) (colat wNorm : List ℝ) (k : ℕ) :
    (gaussBlock AZnodes colat wNorm k).length = min colat.length wNorm.length := by
  by_cases hk : k % 2 = 0 <;> simp [gaussBlock, hk, List.length_zipWith]

lemma gaussBlock_weights (AZnodes : ℕ) (colat wNorm : List ℝ) (k : ℕ)
    (h : colat.length = wNorm.length) :
    ((gaussBlock AZnodes colat wNorm k).map (fun r => r.2.2)).sum = wNorm.sum := by
  by_cases hk : k % 2 = 0
  · rw [gaussBlock, if_pos hk, if_pos hk,
      zipWith_triple_weights _ _ _ (by simp [h]), List.sum_reverse]
  · rw [gaussBlock, if_neg hk, if_neg hk, zipWith_triple_weights _ _ _ h]

lemma gaussBlock_mem (AZnodes : ℕ) (colat wNorm : List ℝ) (k : ℕ)
    {r : ℝ × ℝ × ℝ} (h : r ∈ gaussBlock AZnodes colat wNorm k) :
    r.1 = (k : ℝ) * (2 * Real.pi / AZnodes) ∧ r.2.1 ∈ colat := by
  by_cases hk : k % 2 = 0
  · rw [gaussBlock, if_pos hk, if_pos hk] at h
    obtain ⟨h1, h2⟩ := mem_zipWith_triple h
    exact ⟨h1, List.mem_reverse.mp h2⟩
  · rw [gaussBlock, if_neg hk, if_neg hk] at h
    exact mem_zipWith_triple h

/-- C6: for all azNodes, elNodes >= 1, gaussGrid returns exactly
azNodes * elNodes rows, the weight column sums to 1 (exactly, in the
real-number model of floating point), every azimuth value lies in
[0, 2pi) and every colatitude value lies in [0, pi].  The hypotheses
record the contract of the external leggauss collaborator: it returns
elNodes roots inside [-1, 1] and elNodes weights of positive total. -/
theorem gaussGrid_rows_weights_ranges
    (AZnodes ELnodes : ℕ) (roots ELw : List ℝ)
    (hAZ : 1 ≤ AZnodes) (hEL : 1 ≤ ELnodes)
    (hr : roots.length = ELnodes) (hw : ELw.length = ELnodes)
    (hroots : ∀ x ∈ roots, |x| ≤ 1) (hpos : 0 < ELw.sum) :
    (gaussGrid AZnodes roots ELw).length = AZnodes * ELnodes ∧
    ((gaussGrid AZnodes roots ELw).map (fun r => r.2.2)).sum = 1 ∧
    (∀ r ∈ gaussGrid AZnodes roots ELw, 0 ≤ r.1 ∧ r.1 < 2 * Real.pi) ∧
    (∀ r ∈ gaussGrid AZnodes roots ELw, 0 ≤ r.2.1 ∧ r.2.1 ≤ Real.pi) := by
  have hAZR : (0 : ℝ) < AZnodes := by exact_mod_cast hAZ
  have hpi : (0 : ℝ) < Real.pi := Real.pi_pos
  have hstep : (0 : ℝ) < 2 * Real.pi / AZnodes := by positivity
  refine ⟨?_, ?_, ?_, ?_⟩
  · -- row count
    rw [gaussGrid, List.length_flatMap]
    have hcongr : ∀ k ∈ List.range AZnodes,
        (List.length ∘ gaussBlock AZnodes (roots.map Real.arccos)
          (ELw.map (fun w => 2 * Real.pi / AZnodes * w / 3 / (2 * Real.pi * ELw.sum / 3)))) k
          = ELnodes := by
      intro k _
      simp [gaussBlock_length, hr, hw]
    rw [List.map_congr_left hcongr]
    simp [List.sum_replicate, Nat.mul_comm]
  · -- weights sum to 1
    rw [gaussGrid, sum_map_flatMap]
    have hmapsum :
        (ELw.map (fun w => 2 * Real.pi / AZnodes * w / 3 / (2 * Real.pi * ELw.sum / 3))).sum
          = ELw.sum * (2 * Real.pi / AZnodes / 3 / (2 * Real.pi * ELw.sum / 3)) := by
      have hfg : ELw.map (fun w => 2 * Real.pi / AZnodes * w / 3 / (2 * Real.pi * ELw.sum / 3))
          = ELw.map (fun w => w * (2 * Real.pi / AZnodes / 3 / (2 * Real.pi * ELw.sum / 3))) := by
        refine List.map_congr_left ?_
        intro w _
        ring
      rw [hfg, sum_map_mul_const]
    have hblock : ∀ k ∈ List.range AZnodes,
        ((gaussBlock AZnodes (roots.map Real.arccos)
            (ELw.map (fun w => 2 * Real.pi / AZnodes * w / 3 / (2 * Real.pi * ELw.sum / 3))) k).map
              (fun r => r.2.2)).sum
          = ELw.sum * (2 * Real.pi / AZnodes / 3 / (2 * Real.pi * ELw.sum / 3)) := by
      intro k _
      rw [gaussBlock_weights _ _ _ _ (by simp [hr, hw]), hmapsum]
    rw [List.map_congr_left hblock]
    rw [sum_map_const, List.length_range]
    have hsum : ELw.sum ≠ 0 := ne_of_gt hpos
    have hAZ0 : (AZnodes : ℝ) ≠ 0 := ne_of_gt hAZR
    have hpi0 : Real.pi ≠ 0 := ne_of_gt hpi
    field_simp
    ring
  · -- azimuth range
    intro r hrmem
    rw [gaussGrid, List.mem_flatMap] at hrmem
    obtain ⟨k, hk, hrk⟩ := hrmem
    have hk' : k < AZnodes := List.mem_range.mp hk
    have haz := (gaussBlock_mem _ _ _ _ hrk).1
    rw [haz]
    constructor
    · positivity
    · have hlt : (k : ℝ) < AZnodes := by exact_mod_cast hk'
      calc (k : ℝ) * (2 * Real.pi / AZnodes)
          < AZnodes * (2 * Real.pi / AZnodes) := mul_lt_mul_of_pos_right hlt hstep
        _ = 2 * Real.pi := by field_simp
  · -- colatitude range
    intro r hrmem
    rw [gaussGrid, List.mem_flatMap] at hrmem
    obtain ⟨k, hk, hrk⟩ := hrmem
    have hmem := (gaussBlock_mem _ _ _ _ hrk).2
    obtain ⟨x, _, hx⟩ := List.mem_map.mp hmem
    rw [← hx]
    exact ⟨Real.arccos_nonneg x, Real.arccos_le_pi x⟩

/-- C6 witness: a concrete 1 x 1 grid built from the leggauss data for a
single node (root 0, weight 2) satisfies all hypotheses and conclusions. -/
theorem gaussGrid_rows_weights_ranges_witness :
    (1 ≤ 1 ∧ (0 : ℝ) < ([2] : List ℝ).sum) ∧
    ((gaussGrid 1 [0] [2]).length = 1 * 1 ∧
     ((gaussGrid 1 [0] [2]).map (fun r => r.2.2)).sum = 1 ∧
     (∀ r ∈ gaussGrid 1 [0] [2], 0 ≤ r.1 ∧ r.1 < 2 * Real.pi) ∧
     (∀ r ∈ gaussGrid 1 [0] [2], 0 ≤ r.2.1 ∧ r.2.1 ≤ Real.pi)) :=
  ⟨⟨le_refl 1, by norm_num⟩,
    gaussGrid_rows_weights_ranges 1 1 [0] [2] (le_refl 1) (le_refl 1)
      (by simp) (by simp) (by intro x hx; simp at hx; simp [hx]) (by norm_num)⟩

/-- The quadrature degrees accepted by lebedev (gen.py line 125). -/
def deg_avail : List ℕ := [6, 14, 26, 38, 50, 74, 86, 110, 146, 170, 194]

/-- lebedev from gen.py lines 102-140, parameterised by the external
Lebedev table generator genGrid (Cartesian points x, y, z with weight w)
and the external coordinate converter cart2sph (returning azimuth,
colatitude and radius).  An invalid degree raises a ValueError that
carries the array of available degrees; a valid degree converts the
points, wraps azimuth into [0, 2pi) by the float modulo operation,
shifts the second coordinate by pi / 2, sorts the rows by the second
column and then by the first (np.argsort ascending, modelled here by
insertion sort), and returns the grid together with
Nmax = floor of (sqrt of degree / 1.3) - 1. -/
noncomputable def lebedev
    (genGrid : ℕ → List (ℝ × ℝ × ℝ × ℝ))
    (cart2sph : ℝ → ℝ → ℝ → ℝ × ℝ × ℝ) (degree : ℕ) :
    Except (String × List ℕ) (List (ℝ × ℝ × ℝ) × ℤ) :=
  if degree ∈ deg_avail then
    let rows := (genGrid degree).map (fun p =>
      let s := cart2sph p.1 p.2.1 p.2.2.1
      (s.1 - 2 * Real.pi * ⌊s.1 / (2 * Real.pi)⌋, s.2.1 + Real.pi / 2, p.2.2.2))
    let sorted := (rows.insertionSort (fun a b => a.2.1 ≤ b.2.1)).insertionSort
      (fun a b => a.1 ≤ b.1)
    .ok (sorted, ⌊Real.sqrt ((degree : ℝ) / 1.3) - 1⌋)
  else
    .error ("WARNING: Invalid quadrature degree supplied. Choose one of the following:",
      deg_avail)

/-- C7: lebedev succeeds exactly on the eleven tabulated degrees, and
on any other degree (such as 13) it fails with an invalid-degree error
naming the allowed set, whatever the external grid generator and
coordinate converter do. -/
theorem lebedev_degree_check
    (genGrid : ℕ → List (ℝ × ℝ × ℝ × ℝ)) (cart2sph : ℝ → ℝ → ℝ → ℝ × ℝ × ℝ)
    (degree : ℕ) :
    ((lebedev genGrid cart2sph degree).isOk = true ↔ degree ∈ deg_avail) ∧
    (degree ∉ deg_avail →
      lebedev genGrid cart2sph degree =
        .error ("WARNING: Invalid quadrature degree supplied. Choose one of the following:",
          deg_avail)) := by
  by_cases h : degree ∈ deg_avail
  · exact ⟨by simp [lebedev, h, Except.isOk, Except.toBool], fun hn => absurd h hn⟩
  · exact ⟨by simp [lebedev, h, Except.isOk, Except.toBool], fun _ => by simp [lebedev, h]⟩

/-- A trivial stand-in for the external Lebedev table generator. -/
def genGridZero : ℕ → List (ℝ × ℝ × ℝ × ℝ) := fun _ => []

/-- A trivial stand-in for the external coordinate converter. -/
def cart2sphZero : ℝ → ℝ → ℝ → ℝ × ℝ × ℝ := fun _ _ _ => (0, 0, 0)

/-- C7 witness: degree 13 is outside the allowed set and fails with the
invalid-degree error naming that set, while degree 6 succeeds. -/
theorem lebedev_degree_check_witness :
    (13 ∉ deg_avail) ∧
    lebedev genGridZero cart2sphZero 13 =
      .error ("WARNING: Invalid quadrature degree supplied. Choose one of the following:",
        deg_avail) ∧
    ((lebedev genGridZero cart2sphZero 6).isOk = true ↔ 6 ∈ deg_avail) :=
  ⟨by decide, (lebedev_degree_check genGridZero cart2sphZero 13).2 (by decide),
    (lebedev_degree_check genGridZero cart2sphZero 6).1⟩

/-- First index of the minimum of a list (np.argmin keeps the first
occurrence); used by the low-kr powerloss-compensation branch. -/
noncomputable def argminList (l : List ℝ) : ℕ :=
  (List.range l.length).foldl
    (fun best i => if l.getD i 0 < l.getD best 0 then i else best) 0

/-- The degenerate-kr guard of radFilter (gen.py lines 203-206) for a
one-dimensional kr vector, with the caller-visible in-place mutation
made explicit: the result is the state of the argument array after the
guard.  An empty vector raises IndexError at the read of bin 0; a
vector whose first bin is exactly zero has that bin overwritten with
the second bin (raising IndexError when there is no second bin). -/
noncomputable def radFilter_krUpdate (kr : List ℝ) : Except String (List ℝ) :=
  if kr.length = 0 then .error "IndexError: index 0 is out of bounds"
  else if kr.headD 0 = 0 then
    if kr.length < 2 then .error "IndexError: index 1 is out of bounds"
    else .ok (kr.set 0 (kr.getD 1 0))
  else .ok kr

/-- The degenerate-kr guard of radFilter (gen.py lines 193-206) for a
two-dimensional kr matrix.  Indexing such a matrix at 0 yields its
first row, so the comparison with 0 is elementwise and the
if-statement asks numpy for the truth value of the resulting boolean
array: for a row of more than one element this raises ValueError; a
single-element row behaves like the scalar case, with whole-row
assignment from the second row; for an empty row old numpy treats the
empty comparison array as false. -/
noncomputable def radFilter_krGuardMat (kr : List (List ℝ)) :
    Except String (List (List ℝ)) :=
  match kr.headD [] with
  | [x] =>
      if x = 0 then
        if kr.length < 2 then .error "IndexError: index 1 is out of bounds"
        else .ok (kr.set 0 (kr.getD 1 []))
      else .ok kr
  | [] => .ok kr
  | _ => .error "ValueError: The truth value of an array with more than one element is ambiguous. Use a.any or a.all"

/-- Modal radial filter generator radFilter (gen.py lines 143-272) for a
one-dimensional kr vector, parameterised by the external
array_extrapolation collaborator ae (arguments: order, krm value, krs
value, array configuration).  Modelled faithfully, including: the
amplitude limiter applied when amp_maxdB is non-zero; the
powerloss-compensation bin-count guard, whose Python source
krN < 32 & plc != 0 parses as the chained comparison
krN < (32 & plc) and (32 & plc) != 0 by operator precedence; the xi
compensation curve, which the source assigns only under if not plc
(line 225) so that both compensation branches read an unbound local xi,
modelled by an Option that is none for non-zero effective plc; the
low-kr branch, which either abandons compensation when the filter gap
magnitude exceeds 20 dB or reaches line 253 where the bitwise
expression minDis | (minDis + fadeover) on floats raises TypeError; the
full-spectrum branch, which replaces the order-0 row by xi; and the
beam response, normalised by the square of N + 1.  The xi loop adds
each scalar contribution to every bin of the accumulator, exactly as
the broadcast assignment xi = xi + ... does in the source. -/
noncomputable def radFilter (ae : ℕ → ℝ → ℝ → ℕ → ℂ) (N : ℕ) (kr : List ℝ)
    (ac : ℕ) (amp_maxdB : ℝ) (plc : ℕ) (fadeover : ℕ) :
    Except String ((ℕ → ℕ → ℂ) × (ℕ → ℂ)) :=
  match radFilter_krUpdate kr with
  | .error e => .error e
  | .ok krv =>
    let krN := kr.length
    let a_max : ℝ := (10 : ℝ) ^ (amp_maxdB / 20)
    let F : ℕ → ℕ → ℂ := fun ctr i => ae ctr (krv.getD i 0) (krv.getD i 0) ac
    let OA : ℕ → ℕ → ℂ := fun ctr i =>
      if amp_maxdB ≠ 0 then
        ((2 * a_max / Real.pi * Complex.abs (F ctr i) *
          Real.arctan (Real.pi / (2 * a_max * Complex.abs (F ctr i))) : ℝ) : ℂ) / F ctr i
      else 1 / F ctr i
    let plcEff : ℕ := if krN < (32 &&& plc) ∧ (32 &&& plc) ≠ 0 then 0 else plc
    let xiCurve : Option (ℕ → ℂ) :=
      if plcEff = 0 then
        some ((List.range krN).foldl (fun st ctr =>
          let added : ℕ → ℂ := fun i =>
            st i + ((List.range (N + 1)).map (fun n =>
              ((2 * n + 1 : ℕ) : ℂ) * (1 - OA n ctr * F n ctr))).sum
          fun i => if i = ctr then added ctr / F 0 ctr + OA 0 ctr else added i)
          (fun _ => 0))
      else none
    let beam : (ℕ → ℕ → ℂ) → ℕ → ℂ := fun OAf i =>
      ((List.range (N + 1)).map (fun n =>
        ((2 * n + 1 : ℕ) : ℂ) * F n i * OAf n i)).sum / (((N + 1) ^ 2 : ℕ) : ℂ)
    if plcEff = 1 then
      match xiCurve with
      | none => .error "UnboundLocalError: local variable xi referenced before assignment"
      | some xi =>
          let dists := (List.range krN).map (fun i => Complex.abs (OA 0 i - xi i))
          let gap : ℝ := 20 * Real.logb 10
            (1 / Complex.abs (OA 0 (argminList dists) / xi (argminList dists)))
          if 20 < |gap| then .ok (OA, beam OA)
          else .error "TypeError: unsupported operand types for bitwise or on floats"
    else if plcEff = 2 then
      match xiCurve with
      | none => .error "UnboundLocalError: local variable xi referenced before assignment"
      | some xi => .ok (fun n i => if n = 0 then xi i else OA n i,
          beam (fun n i => if n = 0 then xi i else OA n i))
    else .ok (OA, beam OA)

/-- C1: requesting full-spectrum powerloss compensation never yields a
filter bank at all.  With a kr vector of 32 non-degenerate bins and
plc = 2 (the branch gen.py lines 261-262 label Full spectrum), the xi
curve has only ever been assigned under if not plc (line 225), so the
call raises UnboundLocalError instead of returning a filter bank whose
order-0 row equals xi.  This holds for every array-extrapolation
collaborator, every order N and every array configuration. -/
theorem radFilter_fullSpectrum_raises (ae : ℕ → ℝ → ℝ → ℕ → ℂ) (N ac : ℕ) :
    radFilter ae N ((1 : ℝ) :: List.replicate 31 1) ac 0 2 0 =
      .error "UnboundLocalError: local variable xi referenced before assignment" := by
  have h1 : radFilter_krUpdate ((1 : ℝ) :: List.replicate 31 1) =
      .ok ((1 : ℝ) :: List.replicate 31 1) := by
    rw [radFilter_krUpdate]
    norm_num
  have h2 : (32 &&& 2 : ℕ) = 0 := by decide
  simp only [radFilter, h1, h2, List.length_cons, List.length_replicate]
  norm_num

/-- C2: with fewer than 32 kr bins and the non-zero plc mode 1, the
guard that the spec says disables powerloss compensation never fires
(its condition parses as krN < (32 & plc) and (32 & plc) != 0, which
is false because 32 & 1 = 0), so plc stays 1 and the call raises
UnboundLocalError on the unbound xi instead of succeeding with
compensation disabled.  Shown on a 10-bin kr vector for every
array-extrapolation collaborator, order and configuration. -/
theorem radFilter_smallKr_plc_raises (ae : ℕ → ℝ → ℝ → ℕ → ℂ) (N ac : ℕ) :
    radFilter ae N ((1 : ℝ) :: List.replicate 9 1) ac 0 1 0 =
      .error "UnboundLocalError: local variable xi referenced before assignment" := by
  have h1 : radFilter_krUpdate ((1 : ℝ) :: List.replicate 9 1) =
      .ok ((1 : ℝ) :: List.replicate 9 1) := by
    rw [radFilter_krUpdate]
    norm_num
  have h2 : (32 &&& 1 : ℕ) = 0 := by decide
  simp only [radFilter, h1, h2, List.length_cons, List.length_replicate]
  norm_num

/-- C9: the degenerate-kr guard mutates the kr array of the caller in place:
when the first bin is exactly zero it is overwritten with the second
bin before any filter computation, and when the first bin is non-zero
the argument array is left unchanged. -/
theorem radFilter_kr_mutation (kr : List ℝ) (h0 : kr ≠ []) :
    (kr.headD 0 = 0 → 2 ≤ kr.length →
      radFilter_krUpdate kr = .ok (kr.set 0 (kr.getD 1 0))) ∧
    (kr.headD 0 ≠ 0 → radFilter_krUpdate kr = .ok kr) := by
  have hlen : kr.length ≠ 0 := by
    simpa [List.length_eq_zero] using h0
  constructor
  · intro hz h2
    rw [radFilter_krUpdate, if_neg hlen, if_pos hz, if_neg (by omega)]
  · intro hnz
    rw [radFilter_krUpdate, if_neg hlen, if_neg hnz]

/-- C9 witness: the vector 0, 5 comes back as 5, 5 and the vector 3, 4
comes back unchanged. -/
theorem radFilter_kr_mutation_witness :
    (([(0 : ℝ), 5] : List ℝ) ≠ [] ∧
      radFilter_krUpdate [(0 : ℝ), 5] = .ok [(5 : ℝ), 5]) ∧
    (([(3 : ℝ), 4] : List ℝ) ≠ [] ∧
      radFilter_krUpdate [(3 : ℝ), 4] = .ok [(3 : ℝ), 4]) := by
  refine ⟨⟨by simp, ?_⟩, ⟨by simp, ?_⟩⟩
  · have := (radFilter_kr_mutation [(0 : ℝ), 5] (by simp)).1 (by norm_num) (by norm_num)
    simpa using this
  · exact (radFilter_kr_mutation [(3 : ℝ), 4] (by simp)).2 (by norm_num)

/-- C10: for a 2-row kr matrix with more than one frequency bin per
row, the degenerate-kr guard itself raises: indexing the matrix at 0
yields its whole first row, the comparison with 0 is elementwise, and
taking the truth value of that boolean array raises ValueError, so the
documented two-row kr form never reaches the filter computation. -/
theorem radFilter_matrix_guard_raises (r0 r1 : List ℝ) (h : 2 ≤ r0.length) :
    radFilter_krGuardMat [r0, r1] =
      .error "ValueError: The truth value of an array with more than one element is ambiguous. Use a.any or a.all" := by
  match r0, h with
  | x :: y :: rest, _ => rfl

/-- C10 witness: the documented form with rows 0, 1 and 2, 3 raises at
the guard. -/
theorem radFilter_matrix_guard_raises_witness :
    2 ≤ ([(0 : ℝ), 1] : List ℝ).length ∧
    radFilter_krGuardMat [[(0 : ℝ), 1], [(2 : ℝ), 3]] =
      .error "ValueError: The truth value of an array with more than one element is ambiguous. Use a.any or a.all" :=
  ⟨by simp, radFilter_matrix_guard_raises [(0 : ℝ), 1] [(2 : ℝ), 3] (by simp)⟩

/-- The kr vector built by sampledWave for a scalar radius (gen.py line
349): NFFT/2 + 1 samples linearly spaced from 0 to r * pi * FS / c. -/
noncomputable def sampledWave_kr (r FS c : ℝ) (NFFT : ℕ) : List ℝ :=
  linspace 0 (r * Real.pi * FS / c) (NFFT / 2 + 1)

/-- Per-bin required order clipping of sampledWave (gen.py lines
356-360): orders of at most the floor 70 are raised to 70, orders above
Nlim are lowered to Nlim. -/
def rqOrderClip (Nlim rq : ℤ) : ℤ :=
  let rq1 := if rq ≤ 70 then 70 else rq
  if Nlim < rq1 then Nlim else rq1

/-- The clipped required order per frequency bin (gen.py line 357):
the ceiling of twice the kr value, then clipped. -/
noncomputable def sampledWave_rqOrders (r FS c : ℝ) (NFFT : ℕ) (Nlim : ℤ) : List ℤ :=
  (sampledWave_kr r FS c NFFT).map (fun x => rqOrderClip Nlim ⌈x * 2⌉)

/-- The grouping step of the segmentation loop of sampledWave (gen.py
lines 376-380) as a function of the clipped order list: np.unique
yields the distinct orders in ascending order (modelled by dedup
followed by insertion sort), and for each distinct order the loop
plans one ideal_wave invocation, with the first and last bin index
holding that order as its segment limits and the order itself as the
segment order.  These are only the invocations the loop attempts:
issuing them is modelled by sampledWave_run, because the call site at
line 381 does not bind against the ideal_wave parameter list and every
attempted invocation raises TypeError. -/
def segmentCallsOf (rq : List ℤ) : List (ℤ × ℕ × ℕ) :=
  ((rq.dedup).insertionSort (fun a b => a ≤ b)).map (fun o =>
    let fOrders := (List.range rq.length).filter (fun i => rq.getD i 0 = o)
    (o, fOrders.headD 0, fOrders.getLastD 0))

/-- The ideal_wave invocations the segmentation loop of sampledWave
attempts to issue.  None of them ever executes: see sampledWave_run
for the TypeError each one raises at Python keyword binding. -/
noncomputable def sampledWave_segments (r FS c : ℝ) (NFFT : ℕ) (Nlim : ℤ) :
    List (ℤ × ℕ × ℕ) :=
  segmentCallsOf (sampledWave_rqOrders r FS c NFFT Nlim)

/-- The parameter names of ideal_wave (gen.py lines 387-388), in
order, that a keyword argument of a call may bind to. -/
def ideal_wave_param_names : List String :=
  ["N", "azimuth", "colatitude", "array_radius", "array_configuration",
   "transducer_type", "scatter_radius", "wavetype", "distance", "fs",
   "F_NFFT", "delay", "c", "SegN", "lowerSegLim", "upperSegLim"]

/-- The keyword argument names of the ideal_wave invocation inside the
segmentation loop of sampledWave (gen.py line 381), in call order. -/
def sampledWave_kwarg_names : List String :=
  ["wavetype", "ds", "lowerSegLim", "upperSegLim", "SegN", "printInfo"]

/-- Python keyword binding at a call site: a call whose keyword
arguments include a name that is not a parameter of the callee raises
TypeError naming the first such keyword, before the callee body
runs. -/
def pythonKwBind (callee : String) (params kwargs : List String) :
    Except String Unit :=
  match kwargs.find? (fun k => !params.contains k) with
  | some k =>
      .error ("TypeError: " ++ callee ++ " got an unexpected keyword argument " ++ k)
  | none => .ok ()

/-- The outcome of the segmentation loop of sampledWave (gen.py lines
378-381): the loop walks the planned segment groups and issues one
ideal_wave invocation per group.  Every such invocation goes through
Python keyword binding first, and the call site passes the keywords ds
and printInfo, which ideal_wave does not accept, so the first
iteration raises TypeError and no segment contribution is ever
computed.  The ok value is the list of issued invocations and is only
reachable when there is no segment group at all, which never happens
since the kr vector has at least one bin. -/
noncomputable def sampledWave_run (r FS c : ℝ) (NFFT : ℕ) (Nlim : ℤ) :
    Except String (List (ℤ × ℕ × ℕ)) :=
  match sampledWave_segments r FS c NFFT Nlim with
  | [] => .ok []
  | seg :: rest =>
      match pythonKwBind "ideal_wave" ideal_wave_param_names sampledWave_kwarg_names with
      | .error e => .error e
      | .ok _ => .ok (seg :: rest)

lemma dedup_replicate_succ {α : Type} [DecidableEq α] (a : α) :
    ∀ n : ℕ, (List.replicate (n + 1) a).dedup = [a] := by
  intro n
  induction n with
  | zero => simp
  | succ n ih =>
      rw [List.replicate_succ, List.dedup_cons_of_mem (by simp), ih]

set_option maxRecDepth 40000 in
/-- C3: refuted as stated.  The kr vector built by sampledWave always
has NFFT/2 + 1 bins, and for the small radius 0.01 m at FS 48000,
c 343, NFFT 512 every bin requires an order below the floor 70, so the
segmentation plans exactly one group: one ideal_wave invocation at
order 70 with segment limits 0 and 256.  But that single invocation
never covers the spectrum: the call site (gen.py line 381) passes the
keyword arguments ds and printInfo, which ideal_wave does not accept,
so Python keyword binding raises TypeError before the generator runs
and no sampledWave call ever succeeds. -/
theorem sampledWave_first_invocation_raises :
    (∀ (r FS c : ℝ) (NFFT : ℕ),
      (sampledWave_kr r FS c NFFT).length = NFFT / 2 + 1) ∧
    sampledWave_segments 0.01 48000 343 512 120 = [(70, 0, 256)] ∧
    sampledWave_run 0.01 48000 343 512 120 =
      .error "TypeError: ideal_wave got an unexpected keyword argument ds" := by
  have hseg : sampledWave_segments 0.01 48000 343 512 120 = [(70, 0, 256)] := by
    have hpi : (0 : ℝ) < Real.pi := Real.pi_pos
    have hpilt : Real.pi < 3.15 := Real.pi_lt_315
    have hrq : sampledWave_rqOrders 0.01 48000 343 512 120 = List.replicate 257 70 := by
      rw [sampledWave_rqOrders, sampledWave_kr, linspace, List.map_map, List.eq_replicate]
      refine ⟨by rw [List.length_map, List.length_range], ?_⟩
      intro b hb
      rw [List.mem_map] at hb
      obtain ⟨i, hi, hval⟩ := hb
      have hi' : i < 257 := by simpa using List.mem_range.mp hi
      have hiR : (i : ℝ) ≤ 256 := by exact_mod_cast Nat.le_of_lt_succ hi'
      have hi0 : (0 : ℝ) ≤ (i : ℝ) := Nat.cast_nonneg i
      have hpii : Real.pi * i ≤ 3.15 * 256 :=
        mul_le_mul (le_of_lt hpilt) hiR hi0 (by norm_num)
      have hceil : ⌈((0 : ℝ) + (0.01 * Real.pi * 48000 / 343 - 0) * i / ((257 : ℝ) - 1)) * 2⌉ ≤ (70 : ℤ) := by
        rw [Int.ceil_le]
        push_cast
        nlinarith [hpii]
      simp only [Function.comp] at hval
      have hcast : ((512 / 2 + 1 : ℕ) : ℝ) = 257 := by norm_num
      rw [← hval, hcast, rqOrderClip, if_pos hceil]
      norm_num
    rw [sampledWave_segments, hrq]
    decide
  refine ⟨?_, hseg, ?_⟩
  · intro r FS c NFFT
    rw [sampledWave_kr, linspace, List.length_map, List.length_range]
  · rw [sampledWave_run, hseg]
    rfl

/-- The radial filters of ideal_wave (gen.py lines 467-478) as a
function of order and bin, parameterised by the external collaborators
ae (array_extrapolation, called with order, frequency, array radius,
scatter radius, configuration and transducer type), sp (sphankel2) and
krF (kr).  Rows 0 to SegN hold the wave-type-dependent filter; all
other rows keep the np.zeros initial value.  w and freqs are the
linspace grids over the NFFT bins, and the source passes the array
radius itself as the scatter radius of the extrapolation call. -/
noncomputable def ideal_wave_radial
    (ae : ℕ → ℝ → ℝ → ℝ → String → String → ℂ)
    (sp : ℕ → ℝ → ℂ) (krF : ℝ → ℝ → ℝ)
    (array_radius : ℝ) (array_configuration transducer_type wavetype : String)
    (distance fs c delay : ℝ) (NFFT SegN : ℕ) : ℕ → ℕ → ℂ :=
  fun n i =>
    let w : ℝ := (linspace 0 (Real.pi * fs) NFFT).getD i 0
    let f : ℝ := (linspace 0 (fs / 2) NFFT).getD i 0
    let time_shift : ℂ := Complex.exp (-Complex.I * w * delay)
    if n ≤ SegN then
      if wavetype = "plane" then
        time_shift * ae n f array_radius array_radius array_configuration transducer_type
      else if wavetype = "spherical" then
        4 * (Real.pi : ℂ) * (-Complex.I) * w / (c : ℂ) * time_shift *
          sp n (krF f distance) *
          ae n f array_radius array_radius array_configuration transducer_type
      else 0
    else 0

/-- The Pnm rows written by the generator core of ideal_wave (gen.py
lines 481-487): for each n from 0 to SegN and each m from -n to n
(m = k - n as k runs over 0 .. 2n), the row holds, per frequency bin,
the conjugated spherical harmonic times the radial filter of order n.
The flattened row position is the canonical n squared plus n plus m. -/
noncomputable def ideal_wave_rows (sh : ℤ → ℕ → ℝ → ℝ → ℂ)
    (radial : ℕ → ℕ → ℂ) (azimuth colatitude : ℝ) (SegN : ℕ) : List (ℕ → ℂ) :=
  (List.range (SegN + 1)).flatMap (fun n =>
    (List.range (2 * n + 1)).map (fun k : ℕ =>
      fun i => (starRingEnd ℂ) (sh ((k : ℤ) - (n : ℤ)) n azimuth colatitude) * radial n i))

/-- The Pnm matrix returned by ideal_wave (gen.py lines 480-489) as a
function of row and bin: np.empty allocates NMLocatorSize rows without
initialising them, rows 0 .. (SegN+1)^2 - 1 are then overwritten by
the generator core, and every row beyond that keeps whatever the
uninitialised allocation held, modelled by the explicit junk
parameter. -/
noncomputable def ideal_wave_core
    (sh : ℤ → ℕ → ℝ → ℝ → ℂ) (ae : ℕ → ℝ → ℝ → ℝ → String → String → ℂ)
    (sp : ℕ → ℝ → ℂ) (krF : ℝ → ℝ → ℝ) (junk : ℕ → ℕ → ℂ)
    (azimuth colatitude array_radius : ℝ)
    (array_configuration transducer_type wavetype : String)
    (distance fs : ℝ) (NFFT : ℕ) (delay c : ℝ) (SegN : ℕ) : ℕ → ℕ → ℂ :=
  fun r =>
    (ideal_wave_rows sh
      (ideal_wave_radial ae sp krF array_radius array_configuration transducer_type
        wavetype distance fs c delay NFFT SegN)
      azimuth colatitude SegN).getD r (junk r)

/-- The validation chain of ideal_wave (gen.py lines 443-465) in
source order, returning the message of the first failing check and
none when every check passes.  The string identity comparisons of the
source behave as equality for the interned literals its callers
pass. -/
noncomputable def ideal_wave_check (N : ℕ) (array_radius : ℝ)
    (array_configuration transducer_type wavetype : String)
    (distance fs : ℝ) (F_NFFT : ℕ) (delay : ℝ)
    (SegNArg : Option ℕ) (lowerSegLim : ℤ) (upperSegLimArg : Option ℤ) :
    Option String :=
  let NFFT : ℕ := F_NFFT / 2 + 1
  let SegN : ℕ := SegNArg.getD N
  let upperSegLim : ℤ := upperSegLimArg.getD ((NFFT : ℤ) - 1)
  if upperSegLim < lowerSegLim then
    some "Upper segment limit needs to be below lower limit."
  else if (NFFT : ℤ) - 1 < upperSegLim then
    some "Upper segment limit needs to be below NFFT - 1."
  else if (NFFT : ℤ) - 1 < upperSegLim ∨ upperSegLim < 0 then
    some "Upper segment limit needs to be between 0 and NFFT - 1."
  else if (NFFT : ℤ) - 1 < lowerSegLim ∨ lowerSegLim < 0 then
    some "Lower segment limit needs to be between 0 and NFFT - 1."
  else if N < SegN then
    some "Segment order needs to be smaller than N."
  else if wavetype ≠ "plane" ∧ wavetype ≠ "spherical" then
    some "Invalid wavetype: Choose either plane or spherical."
  else if array_configuration ≠ "open" ∧ array_configuration ≠ "rigid" ∧
      array_configuration ≠ "dual" then
    some "Sphere configuration has to be either open, rigid, or dual."
  else if transducer_type ≠ "pressure" ∧ transducer_type ≠ "velocity" then
    some "Transducer type has to be either pressure or velocity."
  else if array_configuration = "dual" ∧ transducer_type ≠ "pressure" then
    some "For dual sphere configuration, only pressure transducers are allowed."
  else if (F_NFFT : ℝ) / 2 < delay * fs then
    some "Delay t is large for provided NFFT. Choose t smaller than NFFT divided by 2 FS."
  else if wavetype = "plane" ∧ distance ≤ array_radius then
    some "Invalid source distance, source must be outside the microphone radius."
  else none

/-- ideal_wave from gen.py lines 387-489: the validation chain runs
first and its first failing check raises; otherwise the Pnm matrix is
computed by the generator core.  The segment limits lowerSegLim and
upperSegLim are consumed by the validation only and never restrict the
computation, exactly as in the source.  The scatter_radius parameter
is accepted and ignored, as in the source, which passes the array
radius as the scatter radius of every extrapolation call. -/
noncomputable def ideal_wave
    (sh : ℤ → ℕ → ℝ → ℝ → ℂ) (ae : ℕ → ℝ → ℝ → ℝ → String → String → ℂ)
    (sp : ℕ → ℝ → ℂ) (krF : ℝ → ℝ → ℝ) (junk : ℕ → ℕ → ℂ)
    (N : ℕ) (azimuth colatitude array_radius : ℝ)
    (array_configuration transducer_type : String)
    (scatter_radius : Option ℝ) (wavetype : String)
    (distance fs : ℝ) (F_NFFT : ℕ) (delay c : ℝ)
    (SegNArg : Option ℕ) (lowerSegLim : ℤ) (upperSegLimArg : Option ℤ) :
    Except String (ℕ → ℕ → ℂ) :=
  match ideal_wave_check N array_radius array_configuration transducer_type
      wavetype distance fs F_NFFT delay SegNArg lowerSegLim upperSegLimArg with
  | some msg => .error msg
  | none =>
      .ok (ideal_wave_core sh ae sp krF junk azimuth colatitude array_radius
        array_configuration transducer_type wavetype distance fs (F_NFFT / 2 + 1)
        delay c (SegNArg.getD N))

lemma ideal_wave_ok_core
    (sh : ℤ → ℕ → ℝ → ℝ → ℂ) (ae : ℕ → ℝ → ℝ → ℝ → String → String → ℂ)
    (sp : ℕ → ℝ → ℂ) (krF : ℝ → ℝ → ℝ) (junk : ℕ → ℕ → ℂ)
    (N : ℕ) (azimuth colatitude array_radius : ℝ)
    (array_configuration transducer_type : String)
    (scatter_radius : Option ℝ) (wavetype : String)
    (distance fs : ℝ) (F_NFFT : ℕ) (delay c : ℝ)
    (SegNArg : Option ℕ) (lowerSegLim : ℤ) (upperSegLimArg : Option ℤ)
    (P : ℕ → ℕ → ℂ)
    (h : ideal_wave sh ae sp krF junk N azimuth colatitude array_radius
      array_configuration transducer_type scatter_radius wavetype distance fs
      F_NFFT delay c SegNArg lowerSegLim upperSegLimArg = .ok P) :
    P = ideal_wave_core sh ae sp krF junk azimuth colatitude array_radius
      array_configuration transducer_type wavetype distance fs (F_NFFT / 2 + 1)
      delay c (SegNArg.getD N) := by
  rw [ideal_wave] at h
  cases hc : ideal_wave_check N array_radius array_configuration transducer_type
      wavetype distance fs F_NFFT delay SegNArg lowerSegLim upperSegLimArg with
  | some msg => rw [hc] at h; exact Except.noConfusion h
  | none => rw [hc] at h; exact (Except.ok.inj h).symm

set_option maxHeartbeats 1000000 in
lemma ideal_wave_check_none (N : ℕ) (array_radius : ℝ)
    (array_configuration transducer_type wavetype : String)
    (distance fs : ℝ) (F_NFFT : ℕ) (delay : ℝ)
    (SegNArg : Option ℕ) (lowerSegLim : ℤ) (upperSegLimArg : Option ℤ)
    (h : ideal_wave_check N array_radius array_configuration transducer_type
      wavetype distance fs F_NFFT delay SegNArg lowerSegLim upperSegLimArg
      = none) :
    ¬(wavetype = "plane" ∧ distance ≤ array_radius) := by
  simp only [ideal_wave_check] at h
  split_ifs at h with h1 h2 h3 h4 h5 h6 h7 h8 h9 h10 h11
  exact h11

/-- C5: every ideal_wave call with wavetype plane and source distance
at most the array radius (the boundary case of equality included)
fails with a validation error raised before any coefficient
computation, for all collaborators and all remaining arguments. -/
theorem ideal_wave_plane_distance_guard
    (sh : ℤ → ℕ → ℝ → ℝ → ℂ) (ae : ℕ → ℝ → ℝ → ℝ → String → String → ℂ)
    (sp : ℕ → ℝ → ℂ) (krF : ℝ → ℝ → ℝ) (junk : ℕ → ℕ → ℂ)
    (N : ℕ) (azimuth colatitude array_radius : ℝ)
    (array_configuration transducer_type : String)
    (scatter_radius : Option ℝ) (wavetype : String)
    (distance fs : ℝ) (F_NFFT : ℕ) (delay c : ℝ)
    (SegNArg : Option ℕ) (lowerSegLim : ℤ) (upperSegLimArg : Option ℤ)
    (hw : wavetype = "plane") (hd : distance ≤ array_radius) :
    ∃ msg, ideal_wave sh ae sp krF junk N azimuth colatitude array_radius
      array_configuration transducer_type scatter_radius wavetype distance fs
      F_NFFT delay c SegNArg lowerSegLim upperSegLimArg = .error msg := by
  cases hc : ideal_wave_check N array_radius array_configuration
      transducer_type wavetype distance fs F_NFFT delay SegNArg lowerSegLim
      upperSegLimArg with
  | some msg => exact ⟨msg, by rw [ideal_wave, hc]⟩
  | none =>
      exact absurd ⟨hw, hd⟩ (ideal_wave_check_none N array_radius
        array_configuration transducer_type wavetype distance fs F_NFFT delay
        SegNArg lowerSegLim upperSegLimArg hc)

/-- C5 witness: the boundary call with distance equal to the array
radius fails. -/
theorem ideal_wave_plane_distance_guard_witness :
    ("plane" = "plane") ∧ ((1 : ℝ) ≤ 1) ∧
    ∃ msg, ideal_wave (fun _ _ _ _ => 0) (fun _ _ _ _ _ _ => 0) (fun _ _ => 0)
      (fun _ _ => 0) (fun _ _ => 0) 0 0 0 1 "open" "pressure" none "plane" 1 44100
      512 0 343 none 0 none = .error msg :=
  ⟨rfl, le_refl 1,
    ideal_wave_plane_distance_guard (fun _ _ _ _ => 0) (fun _ _ _ _ _ _ => 0)
      (fun _ _ => 0) (fun _ _ => 0) (fun _ _ => 0) 0 0 0 1 "open" "pressure" none
      "plane" 1 44100 512 0 343 none 0 none rfl (le_refl 1)⟩

/-- C4: the rows of the returned Pnm matrix at or above (SegN+1)^2 are
not zero but uninitialised: ideal_wave builds Pnm with np.empty and
only writes the first (SegN+1)^2 rows.  With N = 1, SegN = 0 and an
allocation whose residual contents are all ones, the call succeeds and
row 1 = (SegN+1)^2 carries the value 1, not 0, shown here at bin 0,
for every choice of the external collaborators. -/
theorem ideal_wave_high_rows_uninitialised
    (sh : ℤ → ℕ → ℝ → ℝ → ℂ) (ae : ℕ → ℝ → ℝ → ℝ → String → String → ℂ)
    (sp : ℕ → ℝ → ℂ) (krF : ℝ → ℝ → ℝ) :
    ∃ P, ideal_wave sh ae sp krF (fun _ _ => 1) 1 0 0 1 "open" "pressure" none
      "plane" 2 4 4 0 343 (some 0) 0 none = .ok P ∧ P 1 0 = 1 ∧ (1 : ℂ) ≠ 0 := by
  refine ⟨ideal_wave_core sh ae sp krF (fun _ _ => 1) 0 0 1 "open" "pressure"
    "plane" 2 4 3 0 343 0, ?_, ?_, one_ne_zero⟩
  · have hc : ideal_wave_check 1 1 "open" "pressure" "plane" 2 4 4 0 (some 0)
        0 none = none := by
      norm_num [ideal_wave_check]
    rw [ideal_wave, hc]
    rfl
  · rw [ideal_wave_core, ideal_wave_rows]
    norm_num [List.getD, List.range_succ]

/-- C8: the segment bin limits of ideal_wave are checked at entry but
never restrict which frequency bins are computed: any two calls that
differ only in lowerSegLim and upperSegLim and both pass validation
return identical Pnm matrices. -/
theorem ideal_wave_segment_limits_no_influence
    (sh : ℤ → ℕ → ℝ → ℝ → ℂ) (ae : ℕ → ℝ → ℝ → ℝ → String → String → ℂ)
    (sp : ℕ → ℝ → ℂ) (krF : ℝ → ℝ → ℝ) (junk : ℕ → ℕ → ℂ)
    (N : ℕ) (azimuth colatitude array_radius : ℝ)
    (array_configuration transducer_type : String)
    (scatter_radius : Option ℝ) (wavetype : String)
    (distance fs : ℝ) (F_NFFT : ℕ) (delay c : ℝ) (SegNArg : Option ℕ)
    (l1 l2 : ℤ) (u1 u2 : Option ℤ) (P1 P2 : ℕ → ℕ → ℂ)
    (h1 : ideal_wave sh ae sp krF junk N azimuth colatitude array_radius
      array_configuration transducer_type scatter_radius wavetype distance fs
      F_NFFT delay c SegNArg l1 u1 = .ok P1)
    (h2 : ideal_wave sh ae sp krF junk N azimuth colatitude array_radius
      array_configuration transducer_type scatter_radius wavetype distance fs
      F_NFFT delay c SegNArg l2 u2 = .ok P2) :
    P1 = P2 := by
  rw [ideal_wave_ok_core sh ae sp krF junk N azimuth colatitude array_radius
    array_configuration transducer_type scatter_radius wavetype distance fs
    F_NFFT delay c SegNArg l1 u1 P1 h1,
    ideal_wave_ok_core sh ae sp krF junk N azimuth colatitude array_radius
    array_configuration transducer_type scatter_radius wavetype distance fs
    F_NFFT delay c SegNArg l2 u2 P2 h2]

/-- A trivial stand-in for the external spherical harmonic. -/
def shZero : ℤ → ℕ → ℝ → ℝ → ℂ := fun _ _ _ _ => 0

/-- A trivial stand-in for the external array extrapolation. -/
def aeZero : ℕ → ℝ → ℝ → ℝ → String → String → ℂ := fun _ _ _ _ _ _ => 0

/-- A trivial stand-in for the external spherical Hankel function. -/
def spZero : ℕ → ℝ → ℂ := fun _ _ => 0

/-- A trivial stand-in for the external wavenumber-radius function. -/
def krFZero : ℝ → ℝ → ℝ := fun _ _ => 0

/-- A trivial stand-in for the np.empty allocation residue. -/
def junkZero : ℕ → ℕ → ℂ := fun _ _ => 0

/-- C8 witness: two valid calls with segment limits 0..2 and 1..1
both succeed and return the same matrix. -/
theorem ideal_wave_segment_limits_no_influence_witness :
    ideal_wave shZero aeZero spZero krFZero junkZero 1 0 0 1 "open" "pressure"
      none "plane" 2 4 4 0 343 none 0 (some 2)
      = .ok (ideal_wave_core shZero aeZero spZero krFZero junkZero 0 0 1 "open"
        "pressure" "plane" 2 4 3 0 343 1) ∧
    ideal_wave shZero aeZero spZero krFZero junkZero 1 0 0 1 "open" "pressure"
      none "plane" 2 4 4 0 343 none 1 (some 1)
      = .ok (ideal_wave_core shZero aeZero spZero krFZero junkZero 0 0 1 "open"
        "pressure" "plane" 2 4 3 0 343 1) ∧
    ideal_wave_core shZero aeZero spZero krFZero junkZero 0 0 1 "open"
        "pressure" "plane" 2 4 3 0 343 1
      = ideal_wave_core shZero aeZero spZero krFZero junkZero 0 0 1 "open"
        "pressure" "plane" 2 4 3 0 343 1 := by
  have hc1 : ideal_wave_check 1 1 "open" "pressure" "plane" 2 4 4 0 none 0
      (some 2) = none := by
    norm_num [ideal_wave_check]
  have hc2 : ideal_wave_check 1 1 "open" "pressure" "plane" 2 4 4 0 none 1
      (some 1) = none := by
    norm_num [ideal_wave_check]
  have h1 : ideal_wave shZero aeZero spZero krFZero junkZero 1 0 0 1 "open"
      "pressure" none "plane" 2 4 4 0 343 none 0 (some 2)
      = .ok (ideal_wave_core shZero aeZero spZero krFZero junkZero 0 0 1 "open"
        "pressure" "plane" 2 4 3 0 343 1) := by
    rw [ideal_wave, hc1]
    rfl
  have h2 : ideal_wave shZero aeZero spZero krFZero junkZero 1 0 0 1 "open"
      "pressure" none "plane" 2 4 4 0 343 none 1 (some 1)
      = .ok (ideal_wave_core shZero aeZero spZero krFZero junkZero 0 0 1 "open"
        "pressure" "plane" 2 4 3 0 343 1) := by
    rw [ideal_wave, hc2]
    rfl
  exact ⟨h1, h2,
    ideal_wave_segment_limits_no_influence shZero aeZero spZero krFZero junkZero
      1 0 0 1 "open" "pressure" none "plane" 2 4 4 0 343 none 0 1 (some 2)
      (some 1) _ _ h1 h2⟩

end SfaGen
